import Mathlib

/-!
Verification of the SAP background job worker (`sap_job_worker.py`).

The worker polls a persistent job store for `pending` and retry-ready
`retrying` jobs, dispatches each to a type-specific handler that calls the
external SAP integration client, and writes the outcome back to both the
job row and the referenced business document.

Timestamps are modelled as natural numbers (seconds); every call of
`datetime.utcnow()` inside one processing attempt yields the same `now`
parameter.  A database session is modelled as a pending (in-memory) state,
a committed state, and the ordered list of committed snapshots: ORM
attribute assignment mutates the pending state, `db.session.commit()`
atomically publishes it.
-/

/-- Modelled from the spec: the `SAPJob` record of `models.py` (not included
in the sources); its fields are those the spec's data model lists and the
worker reads and writes.  `payload` is reduced to the parsed document id the
handlers extract from it (`json.loads(job.payload)['grpo_id']` /
`['transfer_id']`); `none` stands for a payload whose parse or key access
raises. -/
structure SAPJob where
  id : Nat
  job_type : String
  document_type : String
  document_id : Nat
  payload : Option Nat
  status : String
  retry_count : Nat
  max_retries : Nat
  next_retry_at : Option Nat
  created_at : Nat
  started_at : Option Nat
  completed_at : Option Nat
  error_message : Option String
  result : Option String
  sap_document_number : Option String
  deriving Repr, DecidableEq

/-- Modelled from the spec: the `GRPODocument` record of `models.py` (not
included in the sources), restricted to the fields the worker touches. -/
structure GRPODocument where
  id : Nat
  status : String
  sap_document_number : Option String
  updated_at : Nat
  deriving Repr, DecidableEq

/-- Modelled from the spec: the `SerialItemTransfer` record of `models.py`
(not included in the sources), restricted to the fields the worker touches. -/
structure SerialItemTransfer where
  id : Nat
  status : String
  sap_document_number : Option String
  updated_at : Nat
  deriving Repr, DecidableEq

/-- Modelled from the spec: the result dictionary returned by the SAP
integration client (`sap_integration.py`, an external collaborator):
`attempt(document) -> (success: bool, document_number?: string, error?: string)`.
The worker reads key `sap_document_number` in the GRPO handler and key
`document_number` in the serial-transfer handler. -/
structure SAPResult where
  success : Bool
  sap_document_number : Option String
  document_number : Option String
  error : Option String
  deriving Repr, DecidableEq

/-- Modelled from the spec: the SAP integration client as a pure response
function per document; a run with a client that always returns failure models
"the remote call fails on every attempt". -/
structure SAPClient where
  post_grpo_to_sap : GRPODocument → SAPResult
  create_serial_item_stock_transfer : SerialItemTransfer → SAPResult

/-- The database contents: the job store plus the two document tables. -/
structure DBState where
  jobs : List SAPJob
  grpos : List GRPODocument
  transfers : List SerialItemTransfer
  deriving Repr, DecidableEq

/-- A session execution: the pending in-memory state, the last committed
state, and the ordered log of committed snapshots. -/
structure Exec where
  pending : DBState
  committed : DBState
  commits : List DBState
  deriving Repr, DecidableEq

/-- Models `db.session.commit()`: atomically publish the pending state. -/
def dbCommit (e : Exec) : Exec :=
  { pending := e.pending, committed := e.pending, commits := e.commits ++ [e.pending] }

/-- Models `SAPJob.query.get` / the identity-mapped live row for an id. -/
def findJob (st : DBState) (i : Nat) : Option SAPJob :=
  st.jobs.find? (fun j => j.id == i)

/-- Models `GRPODocument.query.get(i)`. -/
def findGrpo (st : DBState) (i : Nat) : Option GRPODocument :=
  st.grpos.find? (fun g => g.id == i)

/-- Models `SerialItemTransfer.query.get(i)`. -/
def findTransfer (st : DBState) (i : Nat) : Option SerialItemTransfer :=
  st.transfers.find? (fun t => t.id == i)

/-- ORM attribute assignment on a job row: the row with the same id takes
the new value in the pending state. -/
def updateJob (st : DBState) (j : SAPJob) : DBState :=
  { st with jobs := st.jobs.map (fun k => if k.id == j.id then j else k) }

/-- ORM attribute assignment on a GRPO document row. -/
def updateGrpo (st : DBState) (g : GRPODocument) : DBState :=
  { st with grpos := st.grpos.map (fun k => if k.id == g.id then g else k) }

/-- ORM attribute assignment on a serial-transfer document row. -/
def updateTransfer (st : DBState) (t : SerialItemTransfer) : DBState :=
  { st with transfers := st.transfers.map (fun k => if k.id == t.id then t else k) }

/-- Models `json.dumps(sap_result)` — an opaque serialization; the worker
only ever stores it, never reads it back. -/
def jsonDumps (r : SAPResult) : String :=
  "success: " ++ toString r.success ++
    ", sap_document_number: " ++ toString r.sap_document_number ++
    ", document_number: " ++ toString r.document_number ++
    ", error: " ++ toString r.error

/-- Models `SAPJobWorker._mark_job_failed(job, error_message)`: set the job
to `failed` with `completed_at` and `error_message`, revert the document of
a recognized `document_type` to `qc_approved` when it exists, and commit.
The job row is always present (callers pass rows fetched from the store);
the `none` branch is unreachable in any run. -/
def mark_job_failed (now : Nat) (jobId : Nat) (error_message : String) (e : Exec) : Exec :=
  match findJob e.pending jobId with
  | none => e
  | some job =>
    let job := { job with
      status := "failed", completed_at := some now, error_message := some error_message }
    let e := { e with pending := updateJob e.pending job }
    let e :=
      if job.document_type == "grpo" then
        match findGrpo e.pending job.document_id with
        | some grpo => { e with pending := updateGrpo e.pending { grpo with status := "qc_approved" } }
        | none => e
      else if job.document_type == "serial_item_transfer" then
        match findTransfer e.pending job.document_id with
        | some tr => { e with pending := updateTransfer e.pending { tr with status := "qc_approved" } }
        | none => e
      else e
    dbCommit e

/-- Models `SAPJobWorker._handle_job_retry(job, error_message)`: increment
`retry_count`, record the error; at `retry_count ≥ max_retries` delegate to
`_mark_job_failed` (which commits) and commit again (the trailing
`db.session.commit()` of the Python function), otherwise schedule the retry
with exponential backoff `min(300, 30·2^(retry_count−1))` and commit. -/
def handle_job_retry (now : Nat) (jobId : Nat) (error_message : String) (e : Exec) : Exec :=
  match findJob e.pending jobId with
  | none => e
  | some job =>
    let job := { job with
      retry_count := job.retry_count + 1, error_message := some error_message }
    let e := { e with pending := updateJob e.pending job }
    if job.max_retries ≤ job.retry_count then
      dbCommit (mark_job_failed now jobId error_message e)
    else
      let retry_delay := min 300 (30 * 2 ^ (job.retry_count - 1))
      let job := { job with status := "retrying", next_retry_at := some (now + retry_delay) }
      dbCommit { e with pending := updateJob e.pending job }

/-- Models `SAPJobWorker._process_grpo_job(job)`: parse the payload, load the
GRPO document, call the client; on success update document and job together
and commit once; on any failure raise (returned as `.error msg`) leaving the
session uncommitted. -/
def process_grpo_job (sap : SAPClient) (now : Nat) (jobId : Nat) (e : Exec) :
    Except String Unit × Exec :=
  match findJob e.pending jobId with
  | none => (Except.ok (), e)
  | some job =>
    match job.payload with
    | none => (Except.error "payload parse error", e)
    | some grpo_id =>
      match findGrpo e.pending grpo_id with
      | none => (Except.error ("GRPO document " ++ toString grpo_id ++ " not found"), e)
      | some grpo =>
        let sap_result := sap.post_grpo_to_sap grpo
        if sap_result.success then
          let sap_doc_number := sap_result.sap_document_number
          let grpo := { grpo with
            sap_document_number := sap_doc_number, status := "posted", updated_at := now }
          let e := { e with pending := updateGrpo e.pending grpo }
          let job := { job with
            status := "completed", completed_at := some now,
            sap_document_number := sap_doc_number, result := some (jsonDumps sap_result) }
          let e := { e with pending := updateJob e.pending job }
          (Except.ok (), dbCommit e)
        else
          let error_msg := sap_result.error.getD "Unknown SAP error"
          (Except.error ("SAP posting failed: " ++ error_msg), e)

/-- Models `SAPJobWorker._process_serial_transfer_job(job)`: the serial
transfer handler, identical skeleton to the GRPO handler but reading the
`document_number` key of the client result. -/
def process_serial_transfer_job (sap : SAPClient) (now : Nat) (jobId : Nat) (e : Exec) :
    Except String Unit × Exec :=
  match findJob e.pending jobId with
  | none => (Except.ok (), e)
  | some job =>
    match job.payload with
    | none => (Except.error "payload parse error", e)
    | some transfer_id =>
      match findTransfer e.pending transfer_id with
      | none => (Except.error ("Serial Item Transfer " ++ toString transfer_id ++ " not found"), e)
      | some transfer =>
        let sap_result := sap.create_serial_item_stock_transfer transfer
        if sap_result.success then
          let sap_doc_number := sap_result.document_number
          let transfer := { transfer with
            sap_document_number := sap_doc_number, status := "posted", updated_at := now }
          let e := { e with pending := updateTransfer e.pending transfer }
          let job := { job with
            status := "completed", completed_at := some now,
            sap_document_number := sap_doc_number, result := some (jsonDumps sap_result) }
          let e := { e with pending := updateJob e.pending job }
          (Except.ok (), dbCommit e)
        else
          let error_msg := sap_result.error.getD "Unknown SAP error"
          (Except.error ("SAP posting failed: " ++ error_msg), e)

/-- Models `SAPJobWorker._process_job(job)`: mark the job `processing` and
commit, dispatch on `job_type` (an unknown type raises `ValueError`); on any
failure invoke `_handle_job_retry` and re-raise the exception to the caller. -/
def process_job (sap : SAPClient) (now : Nat) (jobId : Nat) (e : Exec) :
    Except String Unit × Exec :=
  match findJob e.pending jobId with
  | none => (Except.ok (), e)
  | some job =>
    let job := { job with status := "processing", started_at := some now }
    let e := dbCommit { e with pending := updateJob e.pending job }
    let step :=
      if job.job_type == "grpo_post" then
        process_grpo_job sap now jobId e
      else if job.job_type == "serial_transfer" then
        process_serial_transfer_job sap now jobId e
      else
        (Except.error ("Unknown job type: " ++ job.job_type), e)
    match step with
    | (Except.ok _, e) => (Except.ok (), e)
    | (Except.error msg, e) => (Except.error msg, handle_job_retry now jobId msg e)

/-- One iteration of the `for job in pending_jobs` loop of
`_process_pending_jobs`: process the job; an escaping exception is caught
and routed to `_mark_job_failed`. -/
def process_one_pending (sap : SAPClient) (now : Nat) (jobId : Nat) (e : Exec) : Exec :=
  match process_job sap now jobId e with
  | (Except.ok _, e) => e
  | (Except.error msg, e) => mark_job_failed now jobId msg e

/-- One iteration of the `for job in retry_jobs` loop of
`_process_retry_jobs`: process the job; an escaping exception is caught and
routed to `_handle_job_retry` a second time. -/
def process_one_retry (sap : SAPClient) (now : Nat) (jobId : Nat) (e : Exec) : Exec :=
  match process_job sap now jobId e with
  | (Except.ok _, e) => e
  | (Except.error msg, e) => handle_job_retry now jobId msg e

/-- Insertion step of the `created_at`-ascending ordering of a query's
`order_by(SAPJob.created_at)`. -/
def insertByCreated (j : SAPJob) : List SAPJob → List SAPJob
  | [] => [j]
  | k :: ks => if k.created_at ≤ j.created_at then k :: insertByCreated j ks else j :: k :: ks

/-- Sort jobs by `created_at` ascending (stable insertion sort). -/
def sortByCreated (l : List SAPJob) : List SAPJob :=
  l.foldr insertByCreated []

/-- Models the query of `_process_pending_jobs`: all jobs with
`status='pending'` ordered by `created_at` ascending. -/
def fetch_pending (st : DBState) : List SAPJob :=
  sortByCreated (st.jobs.filter (fun j => j.status == "pending"))

/-- Models the query of `_process_retry_jobs`: all jobs with
`status='retrying'` and `next_retry_at ≤ now` ordered by `created_at`
ascending (a SQL comparison against NULL selects nothing). -/
def fetch_retry_ready (now : Nat) (st : DBState) : List SAPJob :=
  sortByCreated (st.jobs.filter (fun j =>
    j.status == "retrying" &&
      match j.next_retry_at with
      | some t => decide (t ≤ now)
      | none => false))

/-- Models `SAPJobWorker._process_pending_jobs()`: fetch the pending jobs
once, then process each in order. -/
def process_pending_jobs (sap : SAPClient) (now : Nat) (e : Exec) : Exec :=
  (fetch_pending e.pending).foldl (fun e j => process_one_pending sap now j.id e) e

/-- Models `SAPJobWorker._process_retry_jobs()`: fetch the retry-ready jobs
once, then process each in order. -/
def process_retry_jobs (sap : SAPClient) (now : Nat) (e : Exec) : Exec :=
  (fetch_retry_ready now e.pending).foldl (fun e j => process_one_retry sap now j.id e) e

/-- The in-process worker object state (`SAPJobWorker.__init__`): poll
interval, running flag, and the optional background thread handle. -/
structure WorkerState where
  poll_interval : Nat
  running : Bool
  thread : Option Nat
  deriving Repr, DecidableEq

/-- Observable side effects of `SAPJobWorker.stop()`. -/
inductive StopAction where
  | joinThread (timeout : Nat)
  | logStopped
  deriving Repr, DecidableEq

/-- Models `SAPJobWorker.stop()`: on a non-running worker return at once; on
a running worker clear the flag, join the thread with a 30 second timeout
when a thread handle exists, and log. -/
def WorkerState.stop (w : WorkerState) : WorkerState × List StopAction :=
  if !w.running then (w, [])
  else
    let w := { w with running := false }
    match w.thread with
    | some _ => (w, [StopAction.joinThread 30, StopAction.logStopped])
    | none => (w, [StopAction.logStopped])

/-! Basic lemmas about the store operations. -/

/-- Replacing every element satisfying `p` by a fixed `j` with `p j = true`
makes `find? p` return `j`, provided some element satisfied `p`. -/
theorem find?_map_replace {α : Type} (p : α → Bool) (j : α) (hj : p j = true) :
    ∀ l : List α, (l.find? p).isSome →
      (l.map (fun k => if p k then j else k)).find? p = some j := by
  intro l
  induction l with
  | nil => intro h; simp [List.find?] at h
  | cons a t ih =>
    intro h
    by_cases ha : p a = true
    · simp [List.find?_cons_of_pos, ha, hj]
    · simp only [Bool.not_eq_true] at ha
      rw [List.find?_cons_of_neg _ (by simp [ha])] at h
      simpa [ha, List.find?_cons_of_neg, hj] using ih h

/-- A job row returned by `findJob` carries the id it was looked up by. -/
theorem findJob_id {st : DBState} {i : Nat} {j : SAPJob}
    (h : findJob st i = some j) : j.id = i := by
  unfold findJob at h
  have hp := List.find?_some h
  simpa using hp

/-- Updating a row and looking it up again returns the new value, provided a
row with that id was present. -/
theorem findJob_updateJob {st : DBState} {i : Nat} {j k : SAPJob}
    (hid : j.id = i) (h : findJob st i = some k) :
    findJob (updateJob st j) i = some j := by
  subst hid
  have hs : (st.jobs.find? (fun k => k.id == j.id)).isSome := by
    unfold findJob at h; simp [h]
  exact find?_map_replace (fun k => k.id == j.id) j (by simp) st.jobs hs

/-- `updateJob` leaves the GRPO table unchanged. -/
theorem grpos_updateJob (st : DBState) (j : SAPJob) :
    (updateJob st j).grpos = st.grpos := rfl

/-- `updateJob` leaves the transfer table unchanged. -/
theorem transfers_updateJob (st : DBState) (j : SAPJob) :
    (updateJob st j).transfers = st.transfers := rfl

/-- `findGrpo` is unaffected by a job update. -/
theorem findGrpo_updateJob (st : DBState) (j : SAPJob) (i : Nat) :
    findGrpo (updateJob st j) i = findGrpo st i := rfl

/-- `findTransfer` is unaffected by a job update. -/
theorem findTransfer_updateJob (st : DBState) (j : SAPJob) (i : Nat) :
    findTransfer (updateJob st j) i = findTransfer st i := rfl

/-- `findJob` is unaffected by a GRPO document update. -/
theorem findJob_updateGrpo (st : DBState) (g : GRPODocument) (i : Nat) :
    findJob (updateGrpo st g) i = findJob st i := rfl

/-- `findJob` is unaffected by a transfer document update. -/
theorem findJob_updateTransfer (st : DBState) (t : SerialItemTransfer) (i : Nat) :
    findJob (updateTransfer st t) i = findJob st i := rfl

/-- A GRPO document row returned by `findGrpo` carries the id it was looked
up by. -/
theorem findGrpo_id {st : DBState} {i : Nat} {g : GRPODocument}
    (h : findGrpo st i = some g) : g.id = i := by
  unfold findGrpo at h
  have hp := List.find?_some h
  simpa using hp

/-- Updating a GRPO row and looking it up again returns the new value,
provided a row with that id was present. -/
theorem findGrpo_updateGrpo {st : DBState} {i : Nat} {g k : GRPODocument}
    (hid : g.id = i) (h : findGrpo st i = some k) :
    findGrpo (updateGrpo st g) i = some g := by
  subst hid
  have hs : (st.grpos.find? (fun k => k.id == g.id)).isSome := by
    unfold findGrpo at h; simp [h]
  exact find?_map_replace (fun k => k.id == g.id) g (by simp) st.grpos hs

/-- A transfer row returned by `findTransfer` carries the id it was looked
up by. -/
theorem findTransfer_id {st : DBState} {i : Nat} {t : SerialItemTransfer}
    (h : findTransfer st i = some t) : t.id = i := by
  unfold findTransfer at h
  have hp := List.find?_some h
  simpa using hp

/-- Updating a transfer row and looking it up again returns the new value,
provided a row with that id was present. -/
theorem findTransfer_updateTransfer {st : DBState} {i : Nat} {t k : SerialItemTransfer}
    (hid : t.id = i) (h : findTransfer st i = some k) :
    findTransfer (updateTransfer st t) i = some t := by
  subst hid
  have hs : (st.transfers.find? (fun k => k.id == t.id)).isSome := by
    unfold findTransfer at h; simp [h]
  exact find?_map_replace (fun k => k.id == t.id) t (by simp) st.transfers hs

/-! Concrete scenarios. -/

/-- A SAP client whose remote call fails on every attempt (models the
Integration Client returning failure repeatedly). -/
def alwaysFailSAP : SAPClient where
  post_grpo_to_sap := fun _ =>
    { success := false, sap_document_number := none, document_number := none,
      error := some "Network error" }
  create_serial_item_stock_transfer := fun _ =>
    { success := false, sap_document_number := none, document_number := none,
      error := some "Network error" }

/-- A SAP client that always succeeds, returning document number 12345 for
GRPO postings and 90001 for serial transfers. -/
def alwaysSucceedSAP : SAPClient where
  post_grpo_to_sap := fun _ =>
    { success := true, sap_document_number := some "12345", document_number := none,
      error := none }
  create_serial_item_stock_transfer := fun _ =>
    { success := true, sap_document_number := none, document_number := some "90001",
      error := none }

/-- A freshly enqueued `grpo_post` job for document 42 with the default
`max_retries = 3`. -/
def grpoPostJob : SAPJob :=
  { id := 1, job_type := "grpo_post", document_type := "grpo", document_id := 42,
    payload := some 42, status := "pending", retry_count := 0, max_retries := 3,
    next_retry_at := none, created_at := 100, started_at := none, completed_at := none,
    error_message := none, result := none, sap_document_number := none }

/-- GRPO document 42, approved by QC and awaiting posting. -/
def grpoDoc42 : GRPODocument :=
  { id := 42, status := "qc_approved", sap_document_number := none, updated_at := 50 }

/-- Store holding exactly the enqueued GRPO job and its document. -/
def initGrpoState : DBState :=
  { jobs := [grpoPostJob], grpos := [grpoDoc42], transfers := [] }

/-- The session at the start of the poll cycle. -/
def initGrpoExec : Exec :=
  { pending := initGrpoState, committed := initGrpoState, commits := [] }

/-- The pending-jobs pass of one poll cycle at time 1000 against the failing
client. -/
def runGrpoFail : Exec := process_pending_jobs alwaysFailSAP 1000 initGrpoExec

/-- C1: a `grpo_post` job with `max_retries = 3` whose SAP call fails is,
contrary to the claim, terminally failed on the very FIRST processing
attempt: `_process_job` already routes the failure through
`_handle_job_retry` (which commits `retrying`, `retry_count = 1`,
`next_retry_at = now + 30`) and then re-raises, so the `except` block of
`_process_pending_jobs` immediately calls `_mark_job_failed`, overwriting
the scheduled retry with `failed` and reverting the document in the same
cycle; at `next_retry_at` no retry-ready job exists.  The claimed sequence
retrying(1)/retrying(2)/failed(3) never happens. -/
theorem grpo_first_failure_is_terminal :
    (findJob runGrpoFail.pending 1).map (fun j => (j.status, j.retry_count)) =
      some ("failed", 1) ∧
    (findGrpo runGrpoFail.pending 42).map (fun g => g.status) = some "qc_approved" ∧
    runGrpoFail.commits.map
        (fun s => (findJob s 1).map (fun j => (j.status, j.retry_count))) =
      [some ("processing", 0), some ("retrying", 1), some ("failed", 1)] ∧
    fetch_retry_ready 1030 runGrpoFail.pending = [] := by
  refine ⟨rfl, rfl, rfl, rfl⟩

/-- The status-transition graph stated by the specification: pending →
processing, processing → completed, processing → retrying, retrying →
processing, processing → failed. -/
def specAllowedEdge : String → String → Bool
  | "pending", "processing" => true
  | "processing", "completed" => true
  | "processing", "retrying" => true
  | "retrying", "processing" => true
  | "processing", "failed" => true
  | _, _ => false

/-- C4: the persisted status history of the job in the failing-GRPO scenario
is pending, processing, retrying, failed — whose last step is the edge
retrying → failed, which the claimed transition graph forbids. -/
theorem status_trace_violates_spec_graph :
    (initGrpoExec.committed :: runGrpoFail.commits).map
        (fun s => (findJob s 1).map (fun j => j.status)) =
      [some "pending", some "processing", some "retrying", some "failed"] ∧
    specAllowedEdge "retrying" "failed" = false := by
  refine ⟨rfl, rfl⟩

/-- A freshly enqueued job whose `job_type` is in no dispatch table. -/
def unknownTypeJob : SAPJob :=
  { id := 7, job_type := "inventory_count", document_type := "grpo", document_id := 42,
    payload := some 42, status := "pending", retry_count := 0, max_retries := 3,
    next_retry_at := none, created_at := 100, started_at := none, completed_at := none,
    error_message := none, result := none, sap_document_number := none }

/-- Store holding the unknown-type job and a document for it. -/
def initUnknownState : DBState :=
  { jobs := [unknownTypeJob], grpos := [grpoDoc42], transfers := [] }

/-- The session at the start of the poll cycle for the unknown-type job. -/
def initUnknownExec : Exec :=
  { pending := initUnknownState, committed := initUnknownState, commits := [] }

/-- The pending-jobs pass over the unknown-type job at time 1000. -/
def runUnknownType : Exec := process_pending_jobs alwaysFailSAP 1000 initUnknownExec

/-- C2 counterexample: a pending job with `job_type = "inventory_count"`
(absent from the dispatch table) and `max_retries = 3` does end its first
processing attempt as `failed`, but with `retry_count = 1`, not 0, and it
was scheduled for retry in between: the second committed snapshot has
`status = "retrying"` with `next_retry_at = 1030`. -/
theorem unknown_job_type_first_attempt_counterexample :
    (findJob runUnknownType.pending 7).map (fun j => (j.status, j.retry_count)) =
      some ("failed", 1) ∧
    (findJob runUnknownType.pending 7).map (fun j => j.retry_count) ≠ some 0 ∧
    runUnknownType.commits.map
        (fun s => (findJob s 7).map (fun j => (j.status, j.next_retry_at))) =
      [some ("processing", none), some ("retrying", some 1030),
        some ("failed", some 1030)] := by
  refine ⟨rfl, by decide, rfl⟩

/-- A freshly enqueued `grpo_post` job whose payload references GRPO
document 99, which does not exist in the store. -/
def missingDocJob : SAPJob :=
  { id := 9, job_type := "grpo_post", document_type := "grpo", document_id := 99,
    payload := some 99, status := "pending", retry_count := 0, max_retries := 3,
    next_retry_at := none, created_at := 100, started_at := none, completed_at := none,
    error_message := none, result := none, sap_document_number := none }

/-- Store holding the job but not its referenced GRPO document. -/
def initMissingDocState : DBState :=
  { jobs := [missingDocJob], grpos := [], transfers := [] }

/-- The session at the start of the poll cycle for the missing-document job. -/
def initMissingDocExec : Exec :=
  { pending := initMissingDocState, committed := initMissingDocState, commits := [] }

/-- The pending-jobs pass over the missing-document job at time 1000. -/
def runMissingDoc : Exec := process_pending_jobs alwaysFailSAP 1000 initMissingDocExec

/-- C3 counterexample: a `grpo_post` job whose referenced document 99 is
absent ends the attempt `failed`, but it IS placed in `status = "retrying"`
first: the handler's `ValueError` goes through `_handle_job_retry`, which
commits a `retrying` snapshot with `retry_count = 1` and
`next_retry_at = 1030`, before the outer handler marks the job failed. -/
theorem missing_document_scheduled_retry_counterexample :
    findGrpo initMissingDocState 99 = none ∧
    runMissingDoc.commits.map
        (fun s => (findJob s 9).map (fun j => (j.status, j.retry_count, j.next_retry_at))) =
      [some ("processing", 0, none), some ("retrying", 1, some 1030),
        some ("failed", 1, some 1030)] ∧
    (runMissingDoc.commits.map (fun s => (findJob s 9).map (fun j => j.status))).contains
        (some "retrying") = true := by
  refine ⟨rfl, rfl, rfl⟩

/-! Effect lemmas for the worker operations. -/

/-- The job row value after `_mark_job_failed` rewrites it. -/
def failedRow (now : Nat) (msg : String) (j : SAPJob) : SAPJob :=
  { j with status := "failed", completed_at := some now, error_message := some msg }

/-- The job row value after `_handle_job_retry` schedules a retry. -/
def retryRow (now : Nat) (msg : String) (j : SAPJob) : SAPJob :=
  { j with
    retry_count := j.retry_count + 1, error_message := some msg,
    status := "retrying",
    next_retry_at := some (now + min 300 (30 * 2 ^ (j.retry_count + 1 - 1))) }

/-- Effect of `_mark_job_failed` on the job row and the session: the row
becomes `failedRow`, and exactly one commit publishes the pending state. -/
theorem mark_job_failed_spec {e : Exec} {i : Nat} {j : SAPJob} (now : Nat) (msg : String)
    (h : findJob e.pending i = some j) :
    findJob (mark_job_failed now i msg e).pending i = some (failedRow now msg j) ∧
    (mark_job_failed now i msg e).commits =
      e.commits ++ [(mark_job_failed now i msg e).pending] ∧
    (mark_job_failed now i msg e).committed = (mark_job_failed now i msg e).pending := by
  have hid0 : j.id = i := findJob_id h
  have hid : (failedRow now msg j).id = i := hid0
  unfold mark_job_failed
  rw [h]
  simp only [dbCommit]
  split
  · split
    · exact ⟨findJob_updateJob hid h, rfl, trivial⟩
    · exact ⟨findJob_updateJob hid h, rfl, trivial⟩
  · split
    · split
      · exact ⟨findJob_updateJob hid h, rfl, trivial⟩
      · exact ⟨findJob_updateJob hid h, rfl, trivial⟩
    · exact ⟨findJob_updateJob hid h, rfl, trivial⟩

/-- Effect of `_mark_job_failed` on a GRPO document: with
`document_type = "grpo"` and the document present, its status is reverted to
`qc_approved` with all other fields kept. -/
theorem mark_job_failed_grpo {e : Exec} {i : Nat} {j : SAPJob} {g : GRPODocument}
    (now : Nat) (msg : String)
    (h : findJob e.pending i = some j) (hty : j.document_type = "grpo")
    (hg : findGrpo e.pending j.document_id = some g) :
    findGrpo (mark_job_failed now i msg e).pending j.document_id =
      some { g with status := "qc_approved" } := by
  have hgid0 : g.id = j.document_id := findGrpo_id hg
  have hgid : ({ g with status := "qc_approved" } : GRPODocument).id = j.document_id := hgid0
  unfold mark_job_failed
  rw [h]
  simp only [dbCommit, hty]
  rw [if_pos (by simp), findGrpo_updateJob]
  rw [hg]
  exact findGrpo_updateGrpo hgid hg

/-- Effect of `_mark_job_failed` on a serial transfer document: with
`document_type = "serial_item_transfer"` and the document present, its
status is reverted to `qc_approved` with all other fields kept. -/
theorem mark_job_failed_transfer {e : Exec} {i : Nat} {j : SAPJob} {t : SerialItemTransfer}
    (now : Nat) (msg : String)
    (h : findJob e.pending i = some j) (hty : j.document_type = "serial_item_transfer")
    (ht : findTransfer e.pending j.document_id = some t) :
    findTransfer (mark_job_failed now i msg e).pending j.document_id =
      some { t with status := "qc_approved" } := by
  have htid0 : t.id = j.document_id := findTransfer_id ht
  have htid : ({ t with status := "qc_approved" } : SerialItemTransfer).id = j.document_id := htid0
  unfold mark_job_failed
  rw [h]
  simp only [dbCommit, hty]
  rw [if_neg (by simp), if_pos (by simp), findTransfer_updateJob]
  rw [ht]
  exact findTransfer_updateTransfer htid ht

/-- With an unrecognized `document_type`, `_mark_job_failed` leaves both
document tables untouched. -/
theorem mark_job_failed_other_docs {e : Exec} {i : Nat} {j : SAPJob}
    (now : Nat) (msg : String)
    (h : findJob e.pending i = some j) (h1 : j.document_type ≠ "grpo")
    (h2 : j.document_type ≠ "serial_item_transfer") :
    (mark_job_failed now i msg e).pending.grpos = e.pending.grpos ∧
    (mark_job_failed now i msg e).pending.transfers = e.pending.transfers := by
  unfold mark_job_failed
  rw [h]
  simp only [dbCommit]
  rw [if_neg (by simp [h1]), if_neg (by simp [h2])]
  exact ⟨rfl, rfl⟩

/-- With `document_type = "grpo"` but the GRPO document missing, the revert
is silently skipped: both document tables are untouched. -/
theorem mark_job_failed_missing_grpo {e : Exec} {i : Nat} {j : SAPJob}
    (now : Nat) (msg : String)
    (h : findJob e.pending i = some j) (hty : j.document_type = "grpo")
    (hg : findGrpo e.pending j.document_id = none) :
    (mark_job_failed now i msg e).pending.grpos = e.pending.grpos ∧
    (mark_job_failed now i msg e).pending.transfers = e.pending.transfers := by
  unfold mark_job_failed
  rw [h]
  simp only [dbCommit, hty]
  rw [if_pos (by simp), findGrpo_updateJob, hg]
  exact ⟨rfl, rfl⟩

/-- With `document_type = "serial_item_transfer"` but the transfer document
missing, the revert is silently skipped: both document tables are
untouched. -/
theorem mark_job_failed_missing_transfer {e : Exec} {i : Nat} {j : SAPJob}
    (now : Nat) (msg : String)
    (h : findJob e.pending i = some j) (hty : j.document_type = "serial_item_transfer")
    (ht : findTransfer e.pending j.document_id = none) :
    (mark_job_failed now i msg e).pending.grpos = e.pending.grpos ∧
    (mark_job_failed now i msg e).pending.transfers = e.pending.transfers := by
  unfold mark_job_failed
  rw [h]
  simp only [dbCommit, hty]
  rw [if_neg (by simp), if_pos (by simp), findTransfer_updateJob, ht]
  exact ⟨rfl, rfl⟩

/-- The job row value right after `_handle_job_retry` increments the retry
count and records the error, before the branch on `max_retries`. -/
def incRow (msg : String) (j : SAPJob) : SAPJob :=
  { j with
    retry_count := j.retry_count + 1, error_message := some msg }

/-- Effect of `_handle_job_retry` while retries remain: the row becomes
`retryRow` (count incremented once, backoff-scheduled), exactly one commit
publishes the state, and both document tables are untouched. -/
theorem handle_job_retry_retry_spec {e : Exec} {i : Nat} {j : SAPJob}
    (now : Nat) (msg : String)
    (h : findJob e.pending i = some j) (hlt : j.retry_count + 1 < j.max_retries) :
    findJob (handle_job_retry now i msg e).pending i = some (retryRow now msg j) ∧
    (handle_job_retry now i msg e).commits =
      e.commits ++ [(handle_job_retry now i msg e).pending] ∧
    (handle_job_retry now i msg e).committed = (handle_job_retry now i msg e).pending ∧
    (handle_job_retry now i msg e).pending.grpos = e.pending.grpos ∧
    (handle_job_retry now i msg e).pending.transfers = e.pending.transfers := by
  have hid0 : j.id = i := findJob_id h
  have hidI : (incRow msg j).id = i := hid0
  have hidR : (retryRow now msg j).id = i := hid0
  have h1 : findJob (updateJob e.pending (incRow msg j)) i = some (incRow msg j) :=
    findJob_updateJob hidI h
  unfold handle_job_retry
  rw [h]
  simp only [dbCommit]
  rw [if_neg (by omega)]
  exact ⟨findJob_updateJob hidR h1, rfl, rfl, rfl, rfl⟩

/-- Effect of `_handle_job_retry` when the incremented count reaches
`max_retries`: the row is handed to `_mark_job_failed` and ends failed with
the count incremented exactly once. -/
theorem handle_job_retry_terminal_spec {e : Exec} {i : Nat} {j : SAPJob}
    (now : Nat) (msg : String)
    (h : findJob e.pending i = some j) (hge : j.max_retries ≤ j.retry_count + 1) :
    findJob (handle_job_retry now i msg e).pending i =
      some (failedRow now msg (incRow msg j)) := by
  have hid0 : j.id = i := findJob_id h
  have hidI : (incRow msg j).id = i := hid0
  have h1 : findJob (updateJob e.pending (incRow msg j)) i = some (incRow msg j) :=
    findJob_updateJob hidI h
  unfold handle_job_retry
  rw [h]
  simp only [dbCommit]
  rw [if_pos (by omega)]
  exact (mark_job_failed_spec now msg h1).1

/-- The job row value after `_process_job` marks it processing. -/
def procRow (now : Nat) (j : SAPJob) : SAPJob :=
  { j with status := "processing", started_at := some now }

/-- The GRPO handler raises `ValueError` when the referenced document is
missing, leaving the session untouched. -/
theorem process_grpo_job_missing_doc {e : Exec} {i gid : Nat} {j : SAPJob}
    (sap : SAPClient) (now : Nat)
    (h : findJob e.pending i = some j) (hp : j.payload = some gid)
    (hg : findGrpo e.pending gid = none) :
    process_grpo_job sap now i e =
      (Except.error ("GRPO document " ++ toString gid ++ " not found"), e) := by
  unfold process_grpo_job
  simp only [h, hp, hg]

/-- `_process_job` on an unknown job type: mark the row processing, commit,
raise `ValueError`, and route the failure through `_handle_job_retry` before
re-raising. -/
theorem process_job_unknown_type {e : Exec} {i : Nat} {j : SAPJob}
    (sap : SAPClient) (now : Nat)
    (h : findJob e.pending i = some j)
    (h1 : j.job_type ≠ "grpo_post") (h2 : j.job_type ≠ "serial_transfer") :
    process_job sap now i e =
      (Except.error ("Unknown job type: " ++ j.job_type),
        handle_job_retry now i ("Unknown job type: " ++ j.job_type)
          (dbCommit { e with pending := updateJob e.pending (procRow now j) })) := by
  have hb1 : (j.job_type == "grpo_post") = false := by simpa using h1
  have hb2 : (j.job_type == "serial_transfer") = false := by simpa using h2
  unfold process_job
  rw [h]
  simp only [procRow, hb1, hb2, Bool.false_eq_true, if_false]

/-- `_process_job` on a `grpo_post` job whose referenced document is
missing: the handler's `ValueError` is routed through `_handle_job_retry`
before being re-raised. -/
theorem process_job_grpo_missing {e : Exec} {i gid : Nat} {j : SAPJob}
    (sap : SAPClient) (now : Nat)
    (h : findJob e.pending i = some j) (hty : j.job_type = "grpo_post")
    (hp : j.payload = some gid) (hg : findGrpo e.pending gid = none) :
    process_job sap now i e =
      (Except.error ("GRPO document " ++ toString gid ++ " not found"),
        handle_job_retry now i ("GRPO document " ++ toString gid ++ " not found")
          (dbCommit { e with pending := updateJob e.pending (procRow now j) })) := by
  have hid0 : j.id = i := findJob_id h
  have hidP : (procRow now j).id = i := hid0
  have hP : findJob (updateJob e.pending (procRow now j)) i = some (procRow now j) :=
    findJob_updateJob hidP h
  have hstep := process_grpo_job_missing_doc (e :=
      dbCommit { e with pending := updateJob e.pending (procRow now j) })
    sap now hP hp hg
  have hb : (j.job_type == "grpo_post") = true := by simp [hty]
  unfold process_job
  simp only [h, hb, if_true]
  simp only [procRow] at hstep
  rw [hstep]
  rfl

/-- The combined effect of the double failure handling: after the row was
marked processing, `_handle_job_retry` (retry branch) followed by
`_mark_job_failed` leaves the row failed with the count incremented exactly
once, while a `retrying` snapshot was committed in between. -/
theorem double_handling_spec {E : Exec} {i : Nat} {jP : SAPJob} (now : Nat) (msg : String)
    (hP : findJob E.pending i = some jP) (hlt : jP.retry_count + 1 < jP.max_retries) :
    (findJob (mark_job_failed now i msg (handle_job_retry now i msg E)).pending i).map
        (fun k => (k.status, k.retry_count)) = some ("failed", jP.retry_count + 1) ∧
    ∃ s ∈ (mark_job_failed now i msg (handle_job_retry now i msg E)).commits,
      (findJob s i).map (fun k => (k.status, k.retry_count, k.next_retry_at)) =
        some ("retrying", jP.retry_count + 1,
          some (now + min 300 (30 * 2 ^ jP.retry_count))) := by
  obtain ⟨hA1, hA2, hA3, hA4, hA5⟩ := handle_job_retry_retry_spec now msg hP hlt
  obtain ⟨hB1, hB2, hB3⟩ := mark_job_failed_spec now msg hA1
  refine ⟨by rw [hB1]; rfl, ⟨(handle_job_retry now i msg E).pending, ?_, by rw [hA1]; rfl⟩⟩
  rw [hB2, hA2]
  simp

/-- C2 (amended): a pending job whose `job_type` is in no dispatch table and
whose `max_retries` exceeds 1 ends its first processing attempt with
`status = "failed"` and `retry_count = 1` (not 0), and a committed snapshot
in between has the job scheduled for retry (`status = "retrying"`,
`next_retry_at = now + 30`). -/
theorem unknown_job_type_first_attempt_amended (sap : SAPClient) (now i : Nat) (e : Exec)
    (j : SAPJob)
    (h : findJob e.pending i = some j)
    (h1 : j.job_type ≠ "grpo_post") (h2 : j.job_type ≠ "serial_transfer")
    (hr : j.retry_count = 0) (hm : 1 < j.max_retries) :
    (findJob (process_one_pending sap now i e).pending i).map
        (fun k => (k.status, k.retry_count)) = some ("failed", 1) ∧
    ∃ s ∈ (process_one_pending sap now i e).commits,
      (findJob s i).map (fun k => (k.status, k.retry_count, k.next_retry_at)) =
        some ("retrying", 1, some (now + 30)) := by
  have hid0 : j.id = i := findJob_id h
  have hidP : (procRow now j).id = i := hid0
  have hP : findJob (updateJob e.pending (procRow now j)) i = some (procRow now j) :=
    findJob_updateJob hidP h
  have hlt' : (procRow now j).retry_count + 1 < (procRow now j).max_retries := by
    simp only [procRow]
    omega
  have hred := process_job_unknown_type sap now h h1 h2
  have hredP : process_one_pending sap now i e =
      mark_job_failed now i ("Unknown job type: " ++ j.job_type)
        (handle_job_retry now i ("Unknown job type: " ++ j.job_type)
          (dbCommit { e with pending := updateJob e.pending (procRow now j) })) := by
    unfold process_one_pending
    rw [hred]
  obtain ⟨hc1, hc2⟩ := double_handling_spec (E :=
      dbCommit { e with pending := updateJob e.pending (procRow now j) })
    now ("Unknown job type: " ++ j.job_type) hP hlt'
  rw [hredP]
  refine ⟨?_, ?_⟩
  · rw [hc1]
    norm_num [procRow, hr]
  · obtain ⟨s, hs1, hs2⟩ := hc2
    refine ⟨s, hs1, ?_⟩
    rw [hs2]
    norm_num [procRow, hr]

/-- C3 (amended): a pending `grpo_post` job whose referenced GRPO document
is missing (with `max_retries > 1`) ends its first processing attempt with
`status = "failed"` and `retry_count = 1`, but a committed snapshot in
between has it placed in `status = "retrying"` with a scheduled
`next_retry_at = now + 30`. -/
theorem missing_document_first_attempt_amended (sap : SAPClient) (now i gid : Nat) (e : Exec)
    (j : SAPJob)
    (h : findJob e.pending i = some j)
    (hty : j.job_type = "grpo_post") (hp : j.payload = some gid)
    (hg : findGrpo e.pending gid = none)
    (hr : j.retry_count = 0) (hm : 1 < j.max_retries) :
    (findJob (process_one_pending sap now i e).pending i).map
        (fun k => (k.status, k.retry_count)) = some ("failed", 1) ∧
    ∃ s ∈ (process_one_pending sap now i e).commits,
      (findJob s i).map (fun k => (k.status, k.retry_count, k.next_retry_at)) =
        some ("retrying", 1, some (now + 30)) := by
  have hid0 : j.id = i := findJob_id h
  have hidP : (procRow now j).id = i := hid0
  have hP : findJob (updateJob e.pending (procRow now j)) i = some (procRow now j) :=
    findJob_updateJob hidP h
  have hlt' : (procRow now j).retry_count + 1 < (procRow now j).max_retries := by
    simp only [procRow]
    omega
  have hred := process_job_grpo_missing sap now h hty hp hg
  have hredP : process_one_pending sap now i e =
      mark_job_failed now i ("GRPO document " ++ toString gid ++ " not found")
        (handle_job_retry now i ("GRPO document " ++ toString gid ++ " not found")
          (dbCommit { e with pending := updateJob e.pending (procRow now j) })) := by
    unfold process_one_pending
    rw [hred]
  obtain ⟨hc1, hc2⟩ := double_handling_spec (E :=
      dbCommit { e with pending := updateJob e.pending (procRow now j) })
    now ("GRPO document " ++ toString gid ++ " not found") hP hlt'
  rw [hredP]
  refine ⟨?_, ?_⟩
  · rw [hc1]
    norm_num [procRow, hr]
  · obtain ⟨s, hs1, hs2⟩ := hc2
    refine ⟨s, hs1, ?_⟩
    rw [hs2]
    norm_num [procRow, hr]

/-- Witness for the amended C2 claim at the concrete unknown-type scenario. -/
theorem unknown_job_type_first_attempt_amended_witness :
    (findJob (process_one_pending alwaysFailSAP 1000 7 initUnknownExec).pending 7).map
        (fun k => (k.status, k.retry_count)) = some ("failed", 1) ∧
    ∃ s ∈ (process_one_pending alwaysFailSAP 1000 7 initUnknownExec).commits,
      (findJob s 7).map (fun k => (k.status, k.retry_count, k.next_retry_at)) =
        some ("retrying", 1, some 1030) := by
  have hmain := unknown_job_type_first_attempt_amended alwaysFailSAP 1000 7 initUnknownExec
    unknownTypeJob rfl (by decide) (by decide) rfl (by decide)
  simpa using hmain

/-- Witness for the amended C3 claim at the concrete missing-document
scenario. -/
theorem missing_document_first_attempt_amended_witness :
    (findJob (process_one_pending alwaysFailSAP 1000 9 initMissingDocExec).pending 9).map
        (fun k => (k.status, k.retry_count)) = some ("failed", 1) ∧
    ∃ s ∈ (process_one_pending alwaysFailSAP 1000 9 initMissingDocExec).commits,
      (findJob s 9).map (fun k => (k.status, k.retry_count, k.next_retry_at)) =
        some ("retrying", 1, some 1030) := by
  have hmain := missing_document_first_attempt_amended alwaysFailSAP 1000 9 99
    initMissingDocExec missingDocJob rfl rfl rfl rfl rfl (by decide)
  simpa using hmain

/-- C5: a single invocation of the retry decision (`_handle_job_retry`)
increments `retry_count` by exactly one; if the incremented count has
reached `max_retries` the job becomes failed, otherwise it is scheduled
retrying with `next_retry_at = now + min(300, 30·2^(retry_count−1))`; with
base 30s and cap 300s the successive delays are 30, 60, 120, 240, 300,
300 seconds. -/
theorem retry_decision_backoff_policy (now i : Nat) (msg : String) (e : Exec) (j : SAPJob)
    (h : findJob e.pending i = some j) :
    ((j.max_retries ≤ j.retry_count + 1 →
        (findJob (handle_job_retry now i msg e).pending i).map
          (fun k => (k.status, k.retry_count)) = some ("failed", j.retry_count + 1)) ∧
      (j.retry_count + 1 < j.max_retries →
        (findJob (handle_job_retry now i msg e).pending i).map
          (fun k => (k.status, k.retry_count, k.next_retry_at)) =
            some ("retrying", j.retry_count + 1,
              some (now + min 300 (30 * 2 ^ (j.retry_count + 1 - 1)))))) ∧
    (List.range 6).map (fun r => min 300 (30 * 2 ^ r)) = [30, 60, 120, 240, 300, 300] := by
  refine ⟨⟨fun hge => ?_, fun hlt => ?_⟩, by decide⟩
  · rw [handle_job_retry_terminal_spec now msg h hge]
    rfl
  · rw [(handle_job_retry_retry_spec now msg h hlt).1]
    rfl

/-- Witness for C5 at the concrete GRPO scenario: the first failure of the
fresh job (count 0 of 3) is scheduled retrying at 1000 + 30. -/
theorem retry_decision_backoff_policy_witness :
    (findJob (handle_job_retry 1000 1 "SAP posting failed: Network error"
        initGrpoExec).pending 1).map
      (fun k => (k.status, k.retry_count, k.next_retry_at)) =
      some ("retrying", 1, some 1030) := by
  have hmain := retry_decision_backoff_policy 1000 1 "SAP posting failed: Network error"
    initGrpoExec grpoPostJob rfl
  simpa using hmain.1.2 (by decide)

/-- C7: when a job is marked permanently failed, its row gets `completed_at`
and `error_message` and the referenced document (of either recognized type,
when present) is reverted to the pre-posting `qc_approved` status; while the
retry decision schedules a retry instead, both document tables are left
unchanged. -/
theorem failed_job_reverts_document_retry_leaves_it :
    (∀ (now i : Nat) (msg : String) (e : Exec) (j : SAPJob) (g : GRPODocument),
      findJob e.pending i = some j →
      j.document_type = "grpo" →
      findGrpo e.pending j.document_id = some g →
      (findJob (mark_job_failed now i msg e).pending i).map
          (fun k => (k.status, k.completed_at, k.error_message)) =
        some ("failed", some now, some msg) ∧
      (findGrpo (mark_job_failed now i msg e).pending j.document_id).map
          (fun d => d.status) = some "qc_approved") ∧
    (∀ (now i : Nat) (msg : String) (e : Exec) (j : SAPJob) (t : SerialItemTransfer),
      findJob e.pending i = some j →
      j.document_type = "serial_item_transfer" →
      findTransfer e.pending j.document_id = some t →
      (findJob (mark_job_failed now i msg e).pending i).map
          (fun k => (k.status, k.completed_at, k.error_message)) =
        some ("failed", some now, some msg) ∧
      (findTransfer (mark_job_failed now i msg e).pending j.document_id).map
          (fun d => d.status) = some "qc_approved") ∧
    (∀ (now i : Nat) (msg : String) (e : Exec) (j : SAPJob),
      findJob e.pending i = some j →
      j.retry_count + 1 < j.max_retries →
      (handle_job_retry now i msg e).pending.grpos = e.pending.grpos ∧
      (handle_job_retry now i msg e).pending.transfers = e.pending.transfers) := by
  refine ⟨?_, ?_, ?_⟩
  · intro now i msg e j g h hty hg
    refine ⟨by rw [(mark_job_failed_spec now msg h).1]; rfl, ?_⟩
    rw [mark_job_failed_grpo now msg h hty hg]
    rfl
  · intro now i msg e j t h hty ht
    refine ⟨by rw [(mark_job_failed_spec now msg h).1]; rfl, ?_⟩
    rw [mark_job_failed_transfer now msg h hty ht]
    rfl
  · intro now i msg e j h hlt
    obtain ⟨_, _, _, h4, h5⟩ := handle_job_retry_retry_spec now msg h hlt
    exact ⟨h4, h5⟩

/-- Witness for C7 at the concrete GRPO scenario: marking the fresh job
failed reverts document 42 to `qc_approved`, and a retry decision on the
same scenario leaves both document tables unchanged. -/
theorem failed_job_reverts_document_retry_leaves_it_witness :
    ((findJob (mark_job_failed 1000 1 "boom" initGrpoExec).pending 1).map
        (fun k => (k.status, k.completed_at, k.error_message)) =
      some ("failed", some 1000, some "boom") ∧
     (findGrpo (mark_job_failed 1000 1 "boom" initGrpoExec).pending 42).map
        (fun d => d.status) = some "qc_approved") ∧
    (handle_job_retry 1000 1 "boom" initGrpoExec).pending.grpos =
      initGrpoExec.pending.grpos := by
  have h1 := failed_job_reverts_document_retry_leaves_it.1 1000 1 "boom" initGrpoExec
    grpoPostJob grpoDoc42 rfl rfl rfl
  have h3 := (failed_job_reverts_document_retry_leaves_it.2.2 1000 1 "boom" initGrpoExec
    grpoPostJob rfl (by decide)).1
  exact ⟨h1, h3⟩

/-- C9: calling `stop()` on a worker that is not running returns the worker
state unchanged and performs no action at all (no thread join, no log). -/
theorem stop_when_not_running_is_noop (w : WorkerState) (h : w.running = false) :
    w.stop = (w, []) := by
  unfold WorkerState.stop
  rw [h]
  rfl

/-- Witness for C9 at a concrete idle worker. -/
theorem stop_when_not_running_is_noop_witness :
    WorkerState.stop { poll_interval := 10, running := false, thread := none } =
      ({ poll_interval := 10, running := false, thread := none }, []) :=
  stop_when_not_running_is_noop { poll_interval := 10, running := false, thread := none } rfl

/-- C10: `_mark_job_failed` is total for every `document_type` and even when
the referenced document is missing: the job row is still set to failed with
`completed_at` and `error_message` populated and the write committed, while
the document revert is silently skipped (both document tables unchanged). -/
theorem mark_job_failed_total_even_without_document
    (now i : Nat) (msg : String) (e : Exec) (j : SAPJob)
    (h : findJob e.pending i = some j) :
    (findJob (mark_job_failed now i msg e).pending i).map
        (fun k => (k.status, k.completed_at, k.error_message)) =
      some ("failed", some now, some msg) ∧
    (mark_job_failed now i msg e).commits =
      e.commits ++ [(mark_job_failed now i msg e).pending] ∧
    (mark_job_failed now i msg e).committed = (mark_job_failed now i msg e).pending ∧
    (j.document_type ≠ "grpo" → j.document_type ≠ "serial_item_transfer" →
      (mark_job_failed now i msg e).pending.grpos = e.pending.grpos ∧
      (mark_job_failed now i msg e).pending.transfers = e.pending.transfers) ∧
    (j.document_type = "grpo" → findGrpo e.pending j.document_id = none →
      (mark_job_failed now i msg e).pending.grpos = e.pending.grpos ∧
      (mark_job_failed now i msg e).pending.transfers = e.pending.transfers) ∧
    (j.document_type = "serial_item_transfer" →
      findTransfer e.pending j.document_id = none →
      (mark_job_failed now i msg e).pending.grpos = e.pending.grpos ∧
      (mark_job_failed now i msg e).pending.transfers = e.pending.transfers) := by
  obtain ⟨hs1, hs2, hs3⟩ := mark_job_failed_spec now msg h
  refine ⟨by rw [hs1]; rfl, hs2, hs3, ?_, ?_, ?_⟩
  · intro h1 h2
    exact mark_job_failed_other_docs now msg h h1 h2
  · intro hty hg
    exact mark_job_failed_missing_grpo now msg h hty hg
  · intro hty ht
    exact mark_job_failed_missing_transfer now msg h hty ht

/-- A pending job whose `document_type` matches no revert branch, in a store
with no documents at all. -/
def strayJob : SAPJob :=
  { id := 3, job_type := "grpo_post", document_type := "production_order", document_id := 5,
    payload := some 5, status := "pending", retry_count := 2, max_retries := 3,
    next_retry_at := none, created_at := 100, started_at := none, completed_at := none,
    error_message := none, result := none, sap_document_number := none }

/-- Session containing only the stray job and empty document tables. -/
def initStrayExec : Exec :=
  { pending := { jobs := [strayJob], grpos := [], transfers := [] },
    committed := { jobs := [strayJob], grpos := [], transfers := [] }, commits := [] }

/-- Witness for C10: marking the stray job failed still populates the row and
commits, with the revert skipped. -/
theorem mark_job_failed_total_even_without_document_witness :
    (findJob (mark_job_failed 1000 3 "boom" initStrayExec).pending 3).map
        (fun k => (k.status, k.completed_at, k.error_message)) =
      some ("failed", some 1000, some "boom") ∧
    (mark_job_failed 1000 3 "boom" initStrayExec).pending.grpos =
      initStrayExec.pending.grpos := by
  have hmain := mark_job_failed_total_even_without_document 1000 3 "boom" initStrayExec
    strayJob rfl
  exact ⟨hmain.1, (hmain.2.2.2.1 (by decide) (by decide)).1⟩

/-- Effect of the GRPO handler on a successful SAP call: the run returns
normally and the single commit of the success branch writes job completion
and document posting together. -/
theorem process_grpo_job_success_spec {e : Exec} {i gid : Nat} {j : SAPJob}
    {g : GRPODocument} (sap : SAPClient) (now : Nat)
    (h : findJob e.pending i = some j) (hp : j.payload = some gid)
    (hg : findGrpo e.pending gid = some g)
    (hs : (sap.post_grpo_to_sap g).success = true) :
    (process_grpo_job sap now i e).1 = Except.ok () ∧
    (process_grpo_job sap now i e).2.commits =
      e.commits ++ [(process_grpo_job sap now i e).2.pending] ∧
    (process_grpo_job sap now i e).2.committed = (process_grpo_job sap now i e).2.pending ∧
    (∃ k, findJob (process_grpo_job sap now i e).2.pending i = some k ∧
      k.status = "completed" ∧ k.completed_at = some now ∧
      k.sap_document_number = (sap.post_grpo_to_sap g).sap_document_number ∧
      k.result = some (jsonDumps (sap.post_grpo_to_sap g))) ∧
    (∃ d, findGrpo (process_grpo_job sap now i e).2.pending gid = some d ∧
      d.status = "posted" ∧
      d.sap_document_number = (sap.post_grpo_to_sap g).sap_document_number) := by
  have hid0 : j.id = i := findJob_id h
  have hgid0 : g.id = gid := findGrpo_id hg
  unfold process_grpo_job
  simp only [h, hp, hg, hs, if_true, dbCommit]
  refine ⟨trivial, trivial, trivial,
    ⟨_, findJob_updateJob ?_ h, rfl, rfl, rfl, rfl⟩,
    ⟨_, findGrpo_updateGrpo ?_ hg, rfl, rfl⟩⟩
  · exact hid0
  · exact hgid0

/-- Effect of the serial-transfer handler on a successful SAP call, the
exact analog of the GRPO handler but reading the `document_number` key. -/
theorem process_serial_transfer_job_success_spec {e : Exec} {i tid : Nat} {j : SAPJob}
    {t : SerialItemTransfer} (sap : SAPClient) (now : Nat)
    (h : findJob e.pending i = some j) (hp : j.payload = some tid)
    (ht : findTransfer e.pending tid = some t)
    (hs : (sap.create_serial_item_stock_transfer t).success = true) :
    (process_serial_transfer_job sap now i e).1 = Except.ok () ∧
    (process_serial_transfer_job sap now i e).2.commits =
      e.commits ++ [(process_serial_transfer_job sap now i e).2.pending] ∧
    (process_serial_transfer_job sap now i e).2.committed =
      (process_serial_transfer_job sap now i e).2.pending ∧
    (∃ k, findJob (process_serial_transfer_job sap now i e).2.pending i = some k ∧
      k.status = "completed" ∧ k.completed_at = some now ∧
      k.sap_document_number = (sap.create_serial_item_stock_transfer t).document_number ∧
      k.result = some (jsonDumps (sap.create_serial_item_stock_transfer t))) ∧
    (∃ d, findTransfer (process_serial_transfer_job sap now i e).2.pending tid = some d ∧
      d.status = "posted" ∧
      d.sap_document_number = (sap.create_serial_item_stock_transfer t).document_number) := by
  have hid0 : j.id = i := findJob_id h
  have htid0 : t.id = tid := findTransfer_id ht
  unfold process_serial_transfer_job
  simp only [h, hp, ht, hs, if_true, dbCommit]
  refine ⟨trivial, trivial, trivial,
    ⟨_, findJob_updateJob ?_ h, rfl, rfl, rfl, rfl⟩,
    ⟨_, findTransfer_updateTransfer ?_ ht, rfl, rfl⟩⟩
  · exact hid0
  · exact htid0

/-- C6: whenever a handler completes a job (client returns success with a
document number), the one commit of the success branch simultaneously sets
the job to completed with `sap_document_number` and `result` populated and
the document to posted with the same number — never one without the
other. -/
theorem completed_job_and_document_updated_atomically :
    (∀ (sap : SAPClient) (now i gid : Nat) (e : Exec) (j : SAPJob) (g : GRPODocument)
        (n : String),
      findJob e.pending i = some j → j.payload = some gid →
      findGrpo e.pending gid = some g →
      (sap.post_grpo_to_sap g).success = true →
      (sap.post_grpo_to_sap g).sap_document_number = some n →
      ∃ s : DBState,
        (process_grpo_job sap now i e).2.commits = e.commits ++ [s] ∧
        (process_grpo_job sap now i e).2.committed = s ∧
        (∃ k, findJob s i = some k ∧ k.status = "completed" ∧
          k.sap_document_number = some n ∧
          k.result = some (jsonDumps (sap.post_grpo_to_sap g))) ∧
        (∃ d, findGrpo s gid = some d ∧ d.status = "posted" ∧
          d.sap_document_number = some n)) ∧
    (∀ (sap : SAPClient) (now i tid : Nat) (e : Exec) (j : SAPJob) (t : SerialItemTransfer)
        (n : String),
      findJob e.pending i = some j → j.payload = some tid →
      findTransfer e.pending tid = some t →
      (sap.create_serial_item_stock_transfer t).success = true →
      (sap.create_serial_item_stock_transfer t).document_number = some n →
      ∃ s : DBState,
        (process_serial_transfer_job sap now i e).2.commits = e.commits ++ [s] ∧
        (process_serial_transfer_job sap now i e).2.committed = s ∧
        (∃ k, findJob s i = some k ∧ k.status = "completed" ∧
          k.sap_document_number = some n ∧
          k.result = some (jsonDumps (sap.create_serial_item_stock_transfer t))) ∧
        (∃ d, findTransfer s tid = some d ∧ d.status = "posted" ∧
          d.sap_document_number = some n)) := by
  constructor
  · intro sap now i gid e j g n h hp hg hs hn
    obtain ⟨-, h2, h3, ⟨k, hk, hk1, hk2, hk3, hk4⟩, ⟨d, hd, hd1, hd2⟩⟩ :=
      process_grpo_job_success_spec sap now h hp hg hs
    exact ⟨(process_grpo_job sap now i e).2.pending, h2, h3,
      ⟨k, hk, hk1, by rw [hk3, hn], hk4⟩, ⟨d, hd, hd1, by rw [hd2, hn]⟩⟩
  · intro sap now i tid e j t n h hp ht hs hn
    obtain ⟨-, h2, h3, ⟨k, hk, hk1, hk2, hk3, hk4⟩, ⟨d, hd, hd1, hd2⟩⟩ :=
      process_serial_transfer_job_success_spec sap now h hp ht hs
    exact ⟨(process_serial_transfer_job sap now i e).2.pending, h2, h3,
      ⟨k, hk, hk1, by rw [hk3, hn], hk4⟩, ⟨d, hd, hd1, by rw [hd2, hn]⟩⟩

/-- A freshly enqueued `serial_transfer` job for transfer document 77. -/
def serialJob : SAPJob :=
  { id := 2, job_type := "serial_transfer", document_type := "serial_item_transfer",
    document_id := 77, payload := some 77, status := "pending", retry_count := 0,
    max_retries := 3, next_retry_at := none, created_at := 200, started_at := none,
    completed_at := none, error_message := none, result := none,
    sap_document_number := none }

/-- Serial transfer document 77, approved by QC and awaiting posting. -/
def transferDoc77 : SerialItemTransfer :=
  { id := 77, status := "qc_approved", sap_document_number := none, updated_at := 60 }

/-- Session holding the serial job and its document. -/
def initSerialExec : Exec :=
  { pending := { jobs := [serialJob], grpos := [], transfers := [transferDoc77] },
    committed := { jobs := [serialJob], grpos := [], transfers := [transferDoc77] },
    commits := [] }

/-- Witness for C6 at the concrete success scenarios of both handlers. -/
theorem completed_job_and_document_updated_atomically_witness :
    (∃ s : DBState,
      (process_grpo_job alwaysSucceedSAP 1000 1 initGrpoExec).2.commits =
        initGrpoExec.commits ++ [s] ∧
      (process_grpo_job alwaysSucceedSAP 1000 1 initGrpoExec).2.committed = s ∧
      (∃ k, findJob s 1 = some k ∧ k.status = "completed" ∧
        k.sap_document_number = some "12345" ∧
        k.result = some (jsonDumps (alwaysSucceedSAP.post_grpo_to_sap grpoDoc42))) ∧
      (∃ d, findGrpo s 42 = some d ∧ d.status = "posted" ∧
        d.sap_document_number = some "12345")) ∧
    (∃ s : DBState,
      (process_serial_transfer_job alwaysSucceedSAP 1000 2 initSerialExec).2.commits =
        initSerialExec.commits ++ [s] ∧
      (process_serial_transfer_job alwaysSucceedSAP 1000 2 initSerialExec).2.committed = s ∧
      (∃ k, findJob s 2 = some k ∧ k.status = "completed" ∧
        k.sap_document_number = some "90001" ∧
        k.result = some (jsonDumps
          (alwaysSucceedSAP.create_serial_item_stock_transfer transferDoc77))) ∧
      (∃ d, findTransfer s 77 = some d ∧ d.status = "posted" ∧
        d.sap_document_number = some "90001")) := by
  constructor
  · exact completed_job_and_document_updated_atomically.1 alwaysSucceedSAP 1000 1 42
      initGrpoExec grpoPostJob grpoDoc42 "12345" rfl rfl rfl rfl rfl
  · exact completed_job_and_document_updated_atomically.2 alwaysSucceedSAP 1000 2 77
      initSerialExec serialJob transferDoc77 "90001" rfl rfl rfl rfl rfl
